import Mathlib

/-!
Shallow embedding of the stress-kinetics engine in `src/main.py`
(repository `AScotM/cortisol-adrenaline`).

Python's mutable objects become immutable Lean structures; each method
becomes a function from the receiver (plus its arguments) to the updated
receiver and, where the method returns a report, to the report as well.
Python floats are modelled as real numbers (`ℝ`), so `0.5 ** x` is the
real power `(0.5 : ℝ) ^ x` (`Real.rpow`).  Calls to the global `random`
module and to `time.time()` are modelled by an explicit context `Ctx`
holding an injected stream of random draws and an injected clock stream;
wrapper functions consume the streams in exactly the order the Python
methods draw from them, while the core functions take the drawn values
as arguments.

`round(x, n)` is modelled as round-half-up on reals; CPython rounds
half-to-even on binary floats, which differs only at exact ties and is
immaterial to every property proved below.
-/

noncomputable section

/-- Model of Python `round(x, 1)` (round-half-up on reals). -/
def pyRound1 (x : ℝ) : ℝ := (round (x * 10) : ℤ) / 10

/-- Model of Python `round(x, 2)` (round-half-up on reals). -/
def pyRound2 (x : ℝ) : ℝ := (round (x * 100) : ℤ) / 100

/-- `class AlertLevel(Enum)` from `src/main.py`. -/
inductive AlertLevel where
  | STANDARD
  | HEIGHTENED
  | CRITICAL
  | COMBAT
deriving DecidableEq, Repr

/-- `class MissionType(Enum)` from `src/main.py`. -/
inductive MissionType where
  | RECON
  | DIRECT_ACTION
  | AMBUSH
  | WITHDRAWAL
  | HOLDING
deriving DecidableEq, Repr

/-- `class ThreatType(Enum)` from `src/main.py`. -/
inductive ThreatType where
  | AMBUSH
  | SNIPER
  | IED
  | DIRECT_FIRE
  | INDIRECT_FIRE
  | PURSUIT
deriving DecidableEq, Repr

/-- `class SoldierStatus(Enum)` from `src/main.py`. -/
inductive SoldierStatus where
  | NORMAL
  | WOUNDED
  | EXHAUSTED
  | PANICKED
  | FOCUSED
  | TUNNEL_VISION
deriving DecidableEq, Repr

/-- `@dataclass PhysiologicalMetrics` from `src/main.py`. -/
structure PhysiologicalMetrics where
  heart_rate_bpm : ℝ
  respiratory_rate : ℝ
  pupil_dilation : ℝ
  tremor_intensity : ℝ
  auditory_threshold : ℝ
  visual_field : ℝ
  reaction_time_ms : ℝ
  situational_awareness : ℝ

/-- State of `class Adrenaline` (`__init__`, baseline default 1.0). -/
structure Adrenaline where
  concentration : ℝ
  baseline : ℝ
  half_life_seconds : ℝ
  peak_response : Bool
  peak_timestamp : ℝ

/-- `Adrenaline(baseline)` constructor. -/
def Adrenaline.create (baseline : ℝ := 1.0) : Adrenaline :=
  { concentration := baseline
    baseline := baseline
    half_life_seconds := 120
    peak_response := false
    peak_timestamp := 0 }

/-- `Adrenaline.metabolize(seconds_elapsed)`:
`decay_factor = 0.5 ** (seconds_elapsed / half_life_seconds)`;
`concentration *= decay_factor`; the peak flag is cleared when the new
concentration falls under `baseline * 1.1`. -/
def Adrenaline.metabolize (a : Adrenaline) (seconds_elapsed : ℝ) : Adrenaline :=
  let decay_factor : ℝ := (0.5 : ℝ) ^ (seconds_elapsed / a.half_life_seconds)
  let conc := a.concentration * decay_factor
  { a with
    concentration := conc
    peak_response := if conc < a.baseline * 1.1 then false else a.peak_response }

/-- The `threat_multipliers` lookup table in `Adrenaline.acute_stress_response`.
Every `ThreatType` is a key of the Python dict, so the `.get` default `3.0`
is unreachable and the table is total. -/
def threat_multipliers : ThreatType → ℝ
  | .AMBUSH => 7.5
  | .SNIPER => 6.8
  | .IED => 8.2
  | .DIRECT_FIRE => 5.9
  | .INDIRECT_FIRE => 4.7
  | .PURSUIT => 3.9

/-- The `PhysiologicalMetrics(...)` record built inside
`Adrenaline.acute_stress_response`, as a function of the
post-multiplication concentration. -/
def acuteMetrics (conc : ℝ) : PhysiologicalMetrics :=
  { heart_rate_bpm := 110 + conc * 8
    respiratory_rate := 22 + conc * 2.5
    pupil_dilation := min 0.95 (0.3 + conc * 0.08)
    tremor_intensity := conc * 0.12
    auditory_threshold := min 0.85 (0.2 + conc * 0.09)
    visual_field := min 0.75 (0.15 + conc * 0.1)
    reaction_time_ms := max 160 (320 - conc * 18)
    situational_awareness := max 0.25 (0.95 - conc * 0.12) }

/-- The dict returned by `Adrenaline.acute_stress_response`. -/
structure AcuteResponse where
  concentration : ℝ
  sympathetic_activation : ℝ
  pain_threshold : ℝ
  auditory_gating : Prop
  peripheral_vision_loss : Prop
  reaction_time_improvement : Prop
  metrics : PhysiologicalMetrics

/-- `Adrenaline.acute_stress_response(threat)`; `now` is the value of the
`time.time()` call that the method stores into `peak_timestamp`. -/
def Adrenaline.acute_stress_response (a : Adrenaline) (threat : ThreatType)
    (now : ℝ) : Adrenaline × AcuteResponse :=
  let conc := a.concentration * threat_multipliers threat
  let a' : Adrenaline :=
    { a with concentration := conc, peak_response := true, peak_timestamp := now }
  let metrics := acuteMetrics conc
  (a', { concentration := pyRound1 conc
         sympathetic_activation := min 1.0 (0.4 + conc * 0.1)
         pain_threshold := min 0.95 (0.4 + conc * 0.08)
         auditory_gating := metrics.auditory_threshold > 0.45
         peripheral_vision_loss := metrics.visual_field < 0.35
         reaction_time_improvement := metrics.reaction_time_ms < 210
         metrics := metrics })

/-- `Adrenaline.performance_modifier()`; `now` is the value of the
`time.time()` call.  When `peak_response` is false the Python method
returns `1.0` before ever reading the clock. -/
def Adrenaline.performance_modifier (a : Adrenaline) (now : ℝ) : ℝ :=
  if !a.peak_response then 1.0
  else
    let duration := now - a.peak_timestamp
    if duration > 180 then max 0.4 (1.0 - (duration - 180) * 0.008)
    else 1.0 + a.concentration * 0.08

/-- State of `class Cortisol` (`__init__`, baseline default 12.0). -/
structure Cortisol where
  concentration : ℝ
  baseline : ℝ
  half_life_hours : ℝ
  deployment_days : ℝ
  recovery_deficit : ℝ
  chronic_adaptation : Bool

/-- `Cortisol(baseline)` constructor. -/
def Cortisol.create (baseline : ℝ := 12.0) : Cortisol :=
  { concentration := baseline
    baseline := baseline
    half_life_hours := 1.5
    deployment_days := 0
    recovery_deficit := 0
    chronic_adaptation := false }

/-- `Cortisol.metabolize(hours_elapsed)`: multiplicative exponential decay,
then clamp up to `baseline` when the decayed value is below it. -/
def Cortisol.metabolize (c : Cortisol) (hours_elapsed : ℝ) : Cortisol :=
  let decay : ℝ := (0.5 : ℝ) ^ (hours_elapsed / c.half_life_hours)
  let conc := c.concentration * decay
  { c with concentration := if conc < c.baseline then c.baseline else conc }

/-- The `mission_factors` lookup table in `Cortisol.stress_accumulation`.
Every `MissionType` is a key of the Python dict, so the `.get` default
`1.2` is unreachable and the table is total. -/
def mission_factors : MissionType → ℝ
  | .RECON => 1.15
  | .DIRECT_ACTION => 1.65
  | .AMBUSH => 1.9
  | .WITHDRAWAL => 1.55
  | .HOLDING => 1.35

/-- `Cortisol.stress_accumulation(duration_hours, mission)`: additive load,
deployment-day bookkeeping, and the one-way baseline ratchet once
`deployment_days` exceeds 7. -/
def Cortisol.stress_accumulation (c : Cortisol) (duration_hours : ℝ)
    (mission : MissionType) : Cortisol :=
  let factor := mission_factors mission
  let conc := c.concentration + duration_hours * factor * 1.8
  let days := c.deployment_days + duration_hours / 24
  if days > 7 then
    { c with
      concentration := conc
      deployment_days := days
      baseline := c.baseline * 1.15
      chronic_adaptation := true }
  else
    { c with concentration := conc, deployment_days := days }

/-- `Cortisol.circadian_modulation(hour, active_duty)`. -/
def Cortisol.circadian_modulation (c : Cortisol) (hour : ℕ)
    (active_duty : Bool) : Cortisol :=
  if active_duty then
    { c with
      concentration := c.concentration * 1.25
      recovery_deficit := c.recovery_deficit + 0.4 }
  else if 5 ≤ hour ∧ hour ≤ 9 then
    { c with concentration := c.concentration * 1.35 }
  else if 23 ≤ hour ∨ hour ≤ 4 then
    { c with
      concentration :=
        c.concentration * (if c.chronic_adaptation then 1.15 else 0.75) }
  else c

/-- The base metrics dict returned by `Cortisol.cognitive_assessment`. -/
structure CognitiveMetrics where
  working_memory : ℝ
  processing_speed : ℝ
  immune_competence : ℝ
  tissue_repair : ℝ
  muscle_recovery_rate : ℝ

/-- The extra keys `Cortisol.cognitive_assessment` adds when
`chronic_adaptation` is set. -/
structure ChronicIndicators where
  baseline_elevation : Prop
  irritability_index : ℝ
  sleep_quality : ℝ
  metabolic_cost : Prop
  long_term_risk : Prop

/-- `Cortisol.cognitive_assessment()`: a pure read.  The Python method
returns one dict whose chronic keys are present only when
`chronic_adaptation` is set; the conditional block is modelled as an
`Option`. -/
def Cortisol.cognitive_assessment (c : Cortisol) :
    CognitiveMetrics × Option ChronicIndicators :=
  let elevation := c.concentration - c.baseline
  let metrics : CognitiveMetrics :=
    { working_memory := max 0.45 (1.0 - elevation * 0.025)
      processing_speed := max 0.55 (1.0 - elevation * 0.018)
      immune_competence := max 0.35 (1.0 - elevation * 0.035)
      tissue_repair := max 0.25 (1.0 - elevation * 0.04)
      muscle_recovery_rate := max 0.4 (1.0 - elevation * 0.025) }
  if c.chronic_adaptation then
    (metrics,
     some { baseline_elevation := c.baseline > 15
            irritability_index := min 1.0 (0.3 + elevation * 0.02)
            sleep_quality := max 0.2 (1.0 - c.recovery_deficit * 0.1)
            metabolic_cost := c.deployment_days > 21
            long_term_risk := c.deployment_days > 45 })
  else (metrics, none)

/-- The dict returned by `OperatorPhysiology.operational_briefing`. -/
structure BriefingReport where
  operator_id : String
  element : String
  mission_type : MissionType
  projected_duration : ℝ
  adrenaline_baseline : ℝ
  cortisol_baseline : ℝ
  readiness_state : AlertLevel

/-- The `engagement_record` dict built by
`OperatorPhysiology.threat_engagement` and appended to the event log. -/
structure EngagementRecord where
  timestamp : ℝ
  threat_classification : ThreatType
  severity_index : ℝ
  adrenaline_response : ℝ
  cortisol_concentration : ℝ
  physiological_response : AcuteResponse
  operator_state : SoldierStatus
  rounds_expended : ℕ
  awareness_index : ℝ

/-- The dict returned by `OperatorPhysiology.element_casualty`. -/
structure CasualtyReport where
  cumulative_casualties : ℕ
  adrenaline_spike : ℝ
  cortisol_level : ℝ
  psychological_state : SoldierStatus
  combat_effectiveness : ℝ
  physiological_state : PhysiologicalMetrics
  immediate_response : String

/-- The `assessment` dict built by `OperatorPhysiology.tactical_retrograde`
and appended to the event log. -/
structure RetroAssessment where
  pursuit_ongoing : Bool
  adrenaline_state : ℝ
  cortisol_state : ℝ
  movement_efficiency : ℝ
  accuracy_degradation : ℝ
  cover_utilization : Prop
  communication_discipline : Prop
  effectiveness_coefficient : ℝ

/-- An entry of an operator's append-only `event_log`. -/
inductive EventRecord where
  | engagement (r : EngagementRecord)
  | retrograde (r : RetroAssessment)

/-- The two report shapes `OperatorPhysiology.extraction_debrief` returns,
depending on `cortisol.chronic_adaptation`. -/
inductive DebriefReport where
  | chronic
      (operator_id : String)
      (deployment_duration_days : ℝ)
      (threat_encounters : ℕ)
      (element_losses : ℕ)
      (cognitive_decline : ℝ)
      (immune_status : ℝ)
      (rotation_required : Prop)
      (psychological_evaluation_recommended : Prop)
  | nominal
      (operator_id : String)
      (final_adrenaline : ℝ)
      (final_cortisol : ℝ)
      (recovery_allocated : ℝ)
      (operational_readiness : Prop)

/-- The dict returned by `OperatorPhysiology.unit_cohesion_analysis`. -/
structure CohesionReport where
  unit_composition : List String
  mean_cortisol : ℝ
  cohesion_index : ℝ
  communication_efficacy : String
  blue_on_blue_risk : String
  mutual_support_index : ℝ

/-- State of `class OperatorPhysiology` (`__init__`). -/
structure OperatorPhysiology where
  identifier : String
  element : String
  adrenaline : Adrenaline
  cortisol : Cortisol
  posture : AlertLevel
  current_mission : Option MissionType
  state : SoldierStatus
  event_log : List EventRecord
  threat_encounters : List ThreatType
  communication_channels : List String
  element_casualties : ℕ
  ammunition_expended : ℕ

/-- `OperatorPhysiology(identifier, element)` constructor. -/
def OperatorPhysiology.create (identifier element : String) :
    OperatorPhysiology :=
  { identifier := identifier
    element := element
    adrenaline := Adrenaline.create
    cortisol := Cortisol.create
    posture := AlertLevel.STANDARD
    current_mission := none
    state := SoldierStatus.NORMAL
    event_log := []
    threat_encounters := []
    communication_channels := []
    element_casualties := 0
    ammunition_expended := 0 }

/-- `OperatorPhysiology.operational_briefing(mission, duration)`. -/
def OperatorPhysiology.operational_briefing (op : OperatorPhysiology)
    (mission : MissionType) (duration : ℝ) :
    OperatorPhysiology × BriefingReport :=
  let op' := { op with
    current_mission := some mission
    posture := AlertLevel.HEIGHTENED
    adrenaline :=
      { op.adrenaline with concentration := op.adrenaline.concentration * 1.4 }
    cortisol :=
      { op.cortisol with concentration := op.cortisol.concentration * 1.15 } }
  (op', { operator_id := op.identifier
          element := op.element
          mission_type := mission
          projected_duration := duration
          adrenaline_baseline := pyRound1 op'.adrenaline.concentration
          cortisol_baseline := pyRound1 op'.cortisol.concentration
          readiness_state := op'.posture })

/-- `OperatorPhysiology.threat_engagement(threat, severity)`.  The drawn
values are passed explicitly: `ammo` is the `random.randint(45, 450)`
draw, `now1` the `time.time()` stored as `peak_timestamp` inside
`acute_stress_response`, `roll` the `random.random()` panic roll (read
only when `threat` is AMBUSH), and `now2` the record's `time.time()`
timestamp. -/
def OperatorPhysiology.threat_engagement (op : OperatorPhysiology)
    (threat : ThreatType) (severity : ℝ) (ammo : ℕ) (now1 roll now2 : ℝ) :
    OperatorPhysiology × EngagementRecord :=
  let ammunition := op.ammunition_expended + ammo
  let ar := op.adrenaline.acute_stress_response threat now1
  let cort' :=
    op.cortisol.stress_accumulation 0.5
      (op.current_mission.getD MissionType.DIRECT_ACTION)
  let st :=
    if threat = ThreatType.AMBUSH then
      if roll < 0.25 then SoldierStatus.PANICKED else SoldierStatus.FOCUSED
    else if threat = ThreatType.SNIPER then SoldierStatus.FOCUSED
    else if threat = ThreatType.IED then SoldierStatus.TUNNEL_VISION
    else op.state
  let record : EngagementRecord :=
    { timestamp := now2
      threat_classification := threat
      severity_index := severity
      adrenaline_response := ar.2.concentration
      cortisol_concentration := pyRound1 cort'.concentration
      physiological_response := ar.2
      operator_state := st
      rounds_expended := ammunition
      awareness_index := ar.2.metrics.situational_awareness }
  ({ op with
     posture := AlertLevel.COMBAT
     threat_encounters := op.threat_encounters ++ [threat]
     ammunition_expended := ammunition
     adrenaline := ar.1
     cortisol := cort'
     state := st
     event_log := op.event_log ++ [EventRecord.engagement record] }, record)

/-- `OperatorPhysiology.element_casualty(severity)`.  `r1` and `r2` are
the `random.randint(5, 25)` and `random.randint(3, 12)` draws for the
vitals snapshot; `now` is the `time.time()` read by the
`performance_modifier()` call in the report (consumed only when the
adrenaline peak flag is set). -/
def OperatorPhysiology.element_casualty (op : OperatorPhysiology)
    (severity : ℝ) (r1 r2 : ℕ) (now : ℝ) :
    OperatorPhysiology × CasualtyReport :=
  let casualties := op.element_casualties + 1
  let adren :=
    { op.adrenaline with concentration := op.adrenaline.concentration * 2.3 }
  let cort :=
    { op.cortisol with concentration := op.cortisol.concentration * 1.7 }
  let st :=
    if casualties > 2 then SoldierStatus.PANICKED else SoldierStatus.FOCUSED
  let vitals : PhysiologicalMetrics :=
    { heart_rate_bpm := 135 + (r1 : ℝ)
      respiratory_rate := 28 + (r2 : ℝ)
      pupil_dilation := 0.75
      tremor_intensity := 0.28
      auditory_threshold := 0.65
      visual_field := 0.55
      reaction_time_ms := 175
      situational_awareness := 0.48 }
  ({ op with
     element_casualties := casualties
     adrenaline := adren
     cortisol := cort
     state := st },
   { cumulative_casualties := casualties
     adrenaline_spike := pyRound1 adren.concentration
     cortisol_level := pyRound1 cort.concentration
     psychological_state := st
     combat_effectiveness := adren.performance_modifier now
     physiological_state := vitals
     immediate_response :=
       if st ≠ SoldierStatus.PANICKED then "suppressive_fire" else "cover" })

/-- `OperatorPhysiology.tactical_retrograde(pursued)`; `now` is the
`time.time()` read by the `performance_modifier()` call. -/
def OperatorPhysiology.tactical_retrograde (op : OperatorPhysiology)
    (pursued : Bool) (now : ℝ) : OperatorPhysiology × RetroAssessment :=
  let adren :=
    if pursued then
      { op.adrenaline with concentration := op.adrenaline.concentration * 1.9 }
    else op.adrenaline
  let cort :=
    if pursued then
      { op.cortisol with concentration := op.cortisol.concentration * 1.25 }
    else op.cortisol
  let effectiveness := adren.performance_modifier now
  let assessment : RetroAssessment :=
    { pursuit_ongoing := pursued
      adrenaline_state := pyRound1 adren.concentration
      cortisol_state := pyRound1 cort.concentration
      movement_efficiency := 1.0 + adren.concentration * 0.12
      accuracy_degradation :=
        if pursued then adren.concentration * 0.08 else 0.03
      cover_utilization := cort.concentration > 18
      communication_discipline := cort.concentration < 22
      effectiveness_coefficient := effectiveness }
  ({ op with
     posture := AlertLevel.CRITICAL
     current_mission := some MissionType.WITHDRAWAL
     adrenaline := adren
     cortisol := cort
     event_log := op.event_log ++ [EventRecord.retrograde assessment] },
   assessment)

/-- `OperatorPhysiology.extraction_debrief(recovery_period)`. -/
def OperatorPhysiology.extraction_debrief (op : OperatorPhysiology)
    (recovery_period : ℝ) : OperatorPhysiology × DebriefReport :=
  let adren := op.adrenaline.metabolize (recovery_period * 3600)
  let cort := op.cortisol.metabolize recovery_period
  let cognitive_state := cort.cognitive_assessment
  let report : DebriefReport :=
    if cort.chronic_adaptation then
      .chronic op.identifier (pyRound1 cort.deployment_days)
        op.threat_encounters.length op.element_casualties
        (pyRound2 cognitive_state.1.working_memory)
        (pyRound2 cognitive_state.1.immune_competence)
        (cort.deployment_days > 40) (cort.deployment_days > 55)
    else
      .nominal op.identifier (pyRound1 adren.concentration)
        (pyRound1 cort.concentration) recovery_period
        (cort.concentration < 14)
  ({ op with
     posture := AlertLevel.STANDARD
     current_mission := none
     adrenaline := adren
     cortisol := cort }, report)

/-- `OperatorPhysiology.unit_cohesion_analysis(team_roster)`: a pure read. -/
def OperatorPhysiology.unit_cohesion_analysis (op : OperatorPhysiology)
    (team_roster : List String) : CohesionReport :=
  let mean_cortisol := op.cortisol.concentration
  let cohesion_index := 1.0 - (mean_cortisol - op.cortisol.baseline) * 0.018
  let comms_effectiveness :=
    if op.cortisol.chronic_adaptation then "degraded"
    else if cohesion_index < 0.72 then "reduced" else "nominal"
  { unit_composition := team_roster
    mean_cortisol := pyRound1 mean_cortisol
    cohesion_index := max 0.35 (pyRound2 cohesion_index)
    communication_efficacy := comms_effectiveness
    blue_on_blue_risk := if mean_cortisol > 28 then "elevated" else "baseline"
    mutual_support_index :=
      max 0.45 (1.0 - op.cortisol.deployment_days * 0.008) }

/-- The injected stochastic environment: a stream of `random.random()`
draws in `[0, 1)` with a cursor, and a stream of `time.time()` readings
with a cursor.  Each call of the Python code to the global `random`
module or to `time.time()` consumes the next element of the matching
stream. -/
structure Ctx where
  rand : ℕ → ℝ
  ri : ℕ
  clock : ℕ → ℝ
  ci : ℕ

/-- One `random.random()` draw. -/
def Ctx.random (c : Ctx) : ℝ × Ctx :=
  (c.rand c.ri, { c with ri := c.ri + 1 })

/-- One `time.time()` reading. -/
def Ctx.now (c : Ctx) : ℝ × Ctx :=
  (c.clock c.ci, { c with ci := c.ci + 1 })

/-- One `random.randint(a, b)` draw, derived from the unit draw. -/
def Ctx.randint (c : Ctx) (a b : ℕ) : ℕ × Ctx :=
  let rc := c.random
  (a + (⌊rc.1 * ((b : ℝ) - (a : ℝ) + 1)⌋).toNat, rc.2)

/-- One `random.uniform(a, b)` draw, derived from the unit draw. -/
def Ctx.uniform (c : Ctx) (a b : ℝ) : ℝ × Ctx :=
  let rc := c.random
  (a + (b - a) * rc.1, rc.2)

/-- `list(ThreatType)` in declaration order. -/
def threatTypeList : List ThreatType :=
  [.AMBUSH, .SNIPER, .IED, .DIRECT_FIRE, .INDIRECT_FIRE, .PURSUIT]

/-- One `random.choice(list(ThreatType))` draw, derived from the unit
draw. -/
def Ctx.choiceThreat (c : Ctx) : ThreatType × Ctx :=
  let rc := c.random
  (threatTypeList.getD (⌊rc.1 * (threatTypeList.length : ℝ)⌋).toNat
     ThreatType.AMBUSH, rc.2)

/-- `Adrenaline.performance_modifier()` with its conditional `time.time()`
call threaded through the context: the clock is read only when
`peak_response` is set. -/
def Adrenaline.performance_modifierC (a : Adrenaline) (c : Ctx) : ℝ × Ctx :=
  if a.peak_response then
    let tc := c.now
    (a.performance_modifier tc.1, tc.2)
  else (1.0, c)

/-- `OperatorPhysiology.threat_engagement` with its draws threaded through
the context, in source order: `random.randint(45, 450)`, the
`time.time()` inside `acute_stress_response`, the `random.random()`
panic roll (AMBUSH only), and the record's `time.time()`. -/
def OperatorPhysiology.threat_engagementC (op : OperatorPhysiology)
    (threat : ThreatType) (severity : ℝ) (c : Ctx) :
    (OperatorPhysiology × EngagementRecord) × Ctx :=
  let ac := c.randint 45 450
  let nc := ac.2.now
  let rc :=
    if threat = ThreatType.AMBUSH then nc.2.random else ((0 : ℝ), nc.2)
  let nc2 := rc.2.now
  (op.threat_engagement threat severity ac.1 nc.1 rc.1 nc2.1, nc2.2)

/-- State of `class BattalionTaskForce` (`__init__`).  The Python dict
`personnel` is an insertion-ordered mapping, modelled as an association
list with unique keys. -/
structure BattalionTaskForce where
  task_force_designation : String
  personnel : List (String × OperatorPhysiology)
  current_operational_tempo : AlertLevel
  area_classification : String
  cumulative_deployment_days : ℕ

/-- `BattalionTaskForce(task_force_designation)` constructor. -/
def BattalionTaskForce.create (task_force_designation : String) :
    BattalionTaskForce :=
  { task_force_designation := task_force_designation
    personnel := []
    current_operational_tempo := AlertLevel.STANDARD
    area_classification := "contested"
    cumulative_deployment_days := 0 }

/-- Python dict assignment `d[k] = v`: replace in place when the key is
present (keeping insertion order), append otherwise. -/
def dictInsert (l : List (String × OperatorPhysiology)) (k : String)
    (v : OperatorPhysiology) : List (String × OperatorPhysiology) :=
  if l.any (fun p => p.1 = k) then
    l.map (fun p => if p.1 = k then (k, v) else p)
  else l ++ [(k, v)]

/-- `BattalionTaskForce.attach_operator(identifier, element)`:
`self.personnel[identifier] = OperatorPhysiology(identifier, element)` —
an unconditional dict assignment with no membership check. -/
def BattalionTaskForce.attach_operator (u : BattalionTaskForce)
    (identifier element : String) : BattalionTaskForce :=
  { u with
    personnel :=
      dictInsert u.personnel identifier
        (OperatorPhysiology.create identifier element) }

/-- The readiness dict returned by
`BattalionTaskForce.assess_unit_readiness`. -/
structure ReadinessReport where
  task_force : String
  assigned_personnel : ℕ
  mean_adrenaline : ℝ
  mean_cortisol : ℝ
  effective_personnel : ℕ
  cohesion_index : ℝ
  operational_tempo : AlertLevel
  deployment_duration : ℝ
  relief_priority : String

/-- `BattalionTaskForce.assess_unit_readiness()`.  The method reads every
operator but assigns nothing, so the returned task force is the receiver
itself.  The `performance_modifier()` calls inside the effectiveness
count read `time.time()`, so the context is threaded through the count;
Python's `and` short-circuits, so the clock is consumed only for
operators whose status is not PANICKED (and whose peak flag is set). -/
def BattalionTaskForce.assess_unit_readinessC (u : BattalionTaskForce)
    (c : Ctx) : (BattalionTaskForce × ReadinessReport) × Ctx :=
  let total_adrenaline :=
    (u.personnel.map (fun p => p.2.adrenaline.concentration)).sum
  let total_cortisol :=
    (u.personnel.map (fun p => p.2.cortisol.concentration)).sum
  let mean_adrenaline :=
    if u.personnel.isEmpty then 0
    else total_adrenaline / (u.personnel.length : ℝ)
  let mean_cortisol :=
    if u.personnel.isEmpty then 0
    else total_cortisol / (u.personnel.length : ℝ)
  let ec :=
    u.personnel.foldl
      (fun (acc : ℕ × Ctx) p =>
        if p.2.state ≠ SoldierStatus.PANICKED then
          let pc := p.2.adrenaline.performance_modifierC acc.2
          (if pc.1 > 0.58 then acc.1 + 1 else acc.1, pc.2)
        else acc)
      (0, c)
  let cohesion_index :=
    if mean_cortisol > 10 then 1.0 - (mean_cortisol - 10) * 0.018 else 1.0
  ((u,
    { task_force := u.task_force_designation
      assigned_personnel := u.personnel.length
      mean_adrenaline := pyRound1 mean_adrenaline
      mean_cortisol := pyRound1 mean_cortisol
      effective_personnel := ec.1
      cohesion_index := max 0.25 (pyRound2 cohesion_index)
      operational_tempo := u.current_operational_tempo
      deployment_duration := pyRound1 (u.cumulative_deployment_days : ℝ)
      relief_priority := if mean_cortisol > 24 then "urgent" else "routine" }),
   ec.2)

/-- `BattalionTaskForce.night_operations_cycle(hour)`: each operator
samples a watch-duty boolean (`random.random() < 0.3`) and applies
`circadian_modulation`. -/
def BattalionTaskForce.night_operations_cycle (u : BattalionTaskForce)
    (hour : ℕ) (c : Ctx) : BattalionTaskForce × Ctx :=
  let fc :=
    u.personnel.foldl
      (fun (acc : List (String × OperatorPhysiology) × Ctx) p =>
        let rc := acc.2.random
        let watch_duty := rc.1 < 0.3
        (acc.1 ++
           [(p.1,
             { p.2 with
               cortisol :=
                 p.2.cortisol.circadian_modulation hour
                   (if watch_duty then true else false) })],
         rc.2))
      ([], c)
  ({ u with personnel := fc.1 }, fc.2)

/-- One hour of `BattalionTaskForce.extended_deployment_simulation`:
every 4th hour all operators metabolize cortisol for 4 hours; during the
6–19 window a contact is sampled (`random.random() < 0.15`) and, on a
hit, a uniformly drawn threat and severity are broadcast to every
operator. -/
def BattalionTaskForce.sim_hour (u : BattalionTaskForce) (hour : ℕ)
    (c : Ctx) : BattalionTaskForce × Ctx :=
  let u1 :=
    if hour % 4 = 0 then
      { u with
        personnel :=
          u.personnel.map
            (fun p => (p.1, { p.2 with cortisol := p.2.cortisol.metabolize 4 })) }
    else u
  if 6 ≤ hour ∧ hour ≤ 19 then
    let rc := c.random
    if rc.1 < 0.15 then
      let tc := rc.2.choiceThreat
      let sc := tc.2.uniform 0.25 0.95
      let fc :=
        u1.personnel.foldl
          (fun (acc : List (String × OperatorPhysiology) × Ctx) p =>
            let ec := p.2.threat_engagementC tc.1 sc.1 acc.2
            (acc.1 ++ [(p.1, ec.1.1)], ec.2))
          ([], sc.2)
      ({ u1 with personnel := fc.1 }, fc.2)
    else (u1, rc.2)
  else (u1, c)

/-- The `for hour in range(24)` loop of
`BattalionTaskForce.extended_deployment_simulation`: fold `sim_hour`
over the 24 hours of one day. -/
def BattalionTaskForce.sim_hours (u : BattalionTaskForce) (c : Ctx) :
    BattalionTaskForce × Ctx :=
  (List.range 24).foldl
    (fun (acc : BattalionTaskForce × Ctx) h =>
      BattalionTaskForce.sim_hour acc.1 h acc.2)
    (u, c)

/-- One day of `BattalionTaskForce.extended_deployment_simulation`:
increment the deployment-day counter, run the 24 hourly steps, then
record the daily readiness assessment. -/
def BattalionTaskForce.sim_day (u : BattalionTaskForce) (c : Ctx) :
    (BattalionTaskForce × ReadinessReport) × Ctx :=
  let u1 :=
    { u with cumulative_deployment_days := u.cumulative_deployment_days + 1 }
  let hc := u1.sim_hours c
  hc.1.assess_unit_readinessC hc.2

/-- `BattalionTaskForce.extended_deployment_simulation(days)`: the ordered
list of daily readiness reports, one per simulated day. -/
def BattalionTaskForce.extended_deployment_simulation
    (u : BattalionTaskForce) (days : ℕ) (c : Ctx) :
    (BattalionTaskForce × List ReadinessReport) × Ctx :=
  (List.range days).foldl
    (fun (acc : (BattalionTaskForce × List ReadinessReport) × Ctx) _ =>
      let dc := acc.1.1.sim_day acc.2
      ((dc.1.1, acc.1.2 ++ [dc.1.2]), dc.2))
    ((u, []), c)

/-- The state-mutating operations an operator can undergo, with every
random draw and clock reading skolemized into parameters so that a
sequence of `Op`s covers every possible run.  The pure reads
(`unit_cohesion_analysis`, `cognitive_assessment`, reports) are
functions in this embedding and cannot modify state. -/
inductive Op where
  | briefing (mission : MissionType) (duration : ℝ)
  | engage (threat : ThreatType) (severity : ℝ) (ammo : ℕ) (now1 roll now2 : ℝ)
  | casualty (severity : ℝ) (r1 r2 : ℕ) (now : ℝ)
  | retrograde (pursued : Bool) (now : ℝ)
  | debrief (recovery_period : ℝ)
  | circadian (hour : ℕ) (duty : Bool)
  | cort_metabolize (hours : ℝ)
  | adren_metabolize (seconds : ℝ)

/-- Apply one operation to an operator's state. -/
def applyOp (s : OperatorPhysiology) : Op → OperatorPhysiology
  | .briefing m d => (s.operational_briefing m d).1
  | .engage t sev ammo n1 roll n2 => (s.threat_engagement t sev ammo n1 roll n2).1
  | .casualty sev r1 r2 n => (s.element_casualty sev r1 r2 n).1
  | .retrograde p n => (s.tactical_retrograde p n).1
  | .debrief rp => (s.extraction_debrief rp).1
  | .circadian h d => { s with cortisol := s.cortisol.circadian_modulation h d }
  | .cort_metabolize t => { s with cortisol := s.cortisol.metabolize t }
  | .adren_metabolize t => { s with adrenaline := s.adrenaline.metabolize t }

/-- Apply a sequence of operations, oldest first. -/
def applyOps (s : OperatorPhysiology) (l : List Op) : OperatorPhysiology :=
  l.foldl applyOp s

/-- The operations that touch a `Cortisol` instance: its three mutating
methods, plus `external_scale k` for the direct
`cortisol.concentration *= k` writes performed by the operator methods
(briefing 1.15, casualty 1.7, pursued retrograde 1.25). -/
inductive COp where
  | metabolize (hours : ℝ)
  | stress (duration_hours : ℝ) (mission : MissionType)
  | circadian (hour : ℕ) (active_duty : Bool)
  | external_scale (k : ℝ)

/-- Apply one cortisol operation. -/
def applyCOp (c : Cortisol) : COp → Cortisol
  | .metabolize h => c.metabolize h
  | .stress d m => c.stress_accumulation d m
  | .circadian h b => c.circadian_modulation h b
  | .external_scale k => { c with concentration := c.concentration * k }

/-- Apply a sequence of cortisol operations, oldest first. -/
def applyCOps (c : Cortisol) (l : List COp) : Cortisol :=
  l.foldl applyCOp c

/-- An initial unit state for the determinism analysis: one operator
whose adrenaline surge is active (as after a threat engagement),
cortisol at its fresh baseline. -/
def simOpA : OperatorPhysiology :=
  { OperatorPhysiology.create "A" "Alpha" with
    adrenaline :=
      { concentration := 6.8
        baseline := 1.0
        half_life_seconds := 120
        peak_response := true
        peak_timestamp := 0 } }

/-- The unit holding `simOpA`. -/
def simUnit : BattalionTaskForce :=
  { BattalionTaskForce.create "TF Raider" with personnel := [("A", simOpA)] }

/-- A context whose random stream is constantly `1/2` (so no contact
event fires) and whose wall clock reads 100 seconds. -/
def ctxA : Ctx :=
  { rand := fun _ => 1 / 2, ri := 0, clock := fun _ => 100, ci := 0 }

/-- The same injected random source as `ctxA`, but a wall clock reading
1000000 seconds. -/
def ctxB : Ctx :=
  { rand := fun _ => 1 / 2, ri := 0, clock := fun _ => 1000000, ci := 0 }

/-- `simUnit` after the day-counter increment performed at the start of
a simulated day. -/
def simUnitDay1 : BattalionTaskForce :=
  { simUnit with
    cumulative_deployment_days := simUnit.cumulative_deployment_days + 1 }

/-! ## Theorems -/

/-- The decay factor `0.5 ** e` is positive for every real exponent. -/
theorem decay_pos (e : ℝ) : (0 : ℝ) < (0.5 : ℝ) ^ e :=
  Real.rpow_pos_of_pos (by norm_num) e

/-- The decay factor `0.5 ** e` is non-negative. -/
theorem decay_nonneg (e : ℝ) : (0 : ℝ) ≤ (0.5 : ℝ) ^ e :=
  (decay_pos e).le

/-- For a positive elapsed time over a positive half-life, the decay
factor is strictly below one. -/
theorem decay_lt_one {t hl : ℝ} (ht : 0 < t) (hhl : 0 < hl) :
    (0.5 : ℝ) ^ (t / hl) < 1 :=
  Real.rpow_lt_one (by norm_num) (by norm_num) (div_pos ht hhl)

/-- Unfolding lemma for the concentration after `Adrenaline.metabolize`. -/
theorem adren_metabolize_concentration (a : Adrenaline) (t : ℝ) :
    (a.metabolize t).concentration =
      a.concentration * (0.5 : ℝ) ^ (t / a.half_life_seconds) := rfl

/-- Unfolding lemma for the concentration after `Cortisol.metabolize`. -/
theorem cort_metabolize_concentration (c : Cortisol) (t : ℝ) :
    (c.metabolize t).concentration =
      if c.concentration * (0.5 : ℝ) ^ (t / c.half_life_hours) < c.baseline
      then c.baseline
      else c.concentration * (0.5 : ℝ) ^ (t / c.half_life_hours) := rfl

/-- `Cortisol.metabolize` never changes the baseline. -/
theorem cort_metabolize_baseline (c : Cortisol) (t : ℝ) :
    (c.metabolize t).baseline = c.baseline := rfl

/-- C4 (amended).  For every hormone instance with a positive half-life
and every strictly positive elapsed time, `metabolize` never increases
the concentration and either strictly decreases it or holds it exactly
at the floor — zero for adrenaline (whose concentration is
non-negative), the baseline for cortisol (when the concentration starts
at or above the baseline).  The original claim fails when a cortisol
concentration sits below its baseline, a state reachable via night
circadian modulation: there `metabolize` raises the concentration. -/
theorem C4_amended_decay_monotone :
    (∀ (a : Adrenaline) (t : ℝ), 0 < t → 0 < a.half_life_seconds →
      0 ≤ a.concentration →
      (a.metabolize t).concentration ≤ a.concentration ∧
      ((a.metabolize t).concentration < a.concentration ∨
        (a.metabolize t).concentration = 0)) ∧
    (∀ (c : Cortisol) (t : ℝ), 0 < t → 0 < c.half_life_hours →
      0 ≤ c.baseline → c.baseline ≤ c.concentration →
      (c.metabolize t).concentration ≤ c.concentration ∧
      ((c.metabolize t).concentration < c.concentration ∨
        (c.metabolize t).concentration = c.baseline)) := by
  constructor
  · intro a t ht hhl hc
    have hd1 : (0.5 : ℝ) ^ (t / a.half_life_seconds) < 1 := decay_lt_one ht hhl
    rw [adren_metabolize_concentration]
    constructor
    · exact mul_le_of_le_one_right hc hd1.le
    · rcases hc.eq_or_lt with h0 | h0
      · right; rw [← h0]; ring
      · left; exact mul_lt_of_lt_one_right h0 hd1
  · intro c t ht hhl hb hbc
    have hd1 : (0.5 : ℝ) ^ (t / c.half_life_hours) < 1 := decay_lt_one ht hhl
    have hc0 : 0 ≤ c.concentration := le_trans hb hbc
    rw [cort_metabolize_concentration]
    split_ifs with h
    · exact ⟨hbc, Or.inr rfl⟩
    · constructor
      · exact mul_le_of_le_one_right hc0 hd1.le
      · rcases hc0.eq_or_lt with h0 | h0
        · right
          have hb0 : c.baseline = 0 := le_antisymm (hbc.trans h0.symm.le) hb
          rw [← h0, hb0]; ring
        · left; exact mul_lt_of_lt_one_right h0 hd1

/-- C4 witness: the amended statement evaluated on a fresh adrenaline
instance over 60 seconds and a fresh cortisol instance over 1 hour. -/
theorem C4_witness :
    ((Adrenaline.create.metabolize 60).concentration ≤
        Adrenaline.create.concentration ∧
      ((Adrenaline.create.metabolize 60).concentration <
          Adrenaline.create.concentration ∨
        (Adrenaline.create.metabolize 60).concentration = 0)) ∧
    ((Cortisol.create.metabolize 1).concentration ≤
        Cortisol.create.concentration ∧
      ((Cortisol.create.metabolize 1).concentration <
          Cortisol.create.concentration ∨
        (Cortisol.create.metabolize 1).concentration =
          Cortisol.create.baseline)) :=
  ⟨C4_amended_decay_monotone.1 Adrenaline.create 60 (by norm_num)
      (by norm_num [Adrenaline.create]) (by norm_num [Adrenaline.create]),
   C4_amended_decay_monotone.2 Cortisol.create 1 (by norm_num)
      (by norm_num [Cortisol.create]) (by norm_num [Cortisol.create])
      (by norm_num [Cortisol.create])⟩

/-- C4 counterexample: at the reachable state produced by night
circadian modulation on a fresh cortisol instance (concentration 9,
baseline 12), `metabolize(1)` strictly increases the concentration,
refuting "it never increases the concentration". -/
theorem C4_cex_metabolize_increases_below_baseline :
    ((Cortisol.create.circadian_modulation 23 false).metabolize 1).concentration >
      (Cortisol.create.circadian_modulation 23 false).concentration := by
  have hstate : Cortisol.create.circadian_modulation 23 false =
      { Cortisol.create with concentration := 9 } := by
    simp only [Cortisol.circadian_modulation, Cortisol.create]
    norm_num
  rw [hstate, cort_metabolize_concentration]
  have hd1 : (0.5 : ℝ) ^
      ((1 : ℝ) / ({ Cortisol.create with concentration := 9 } : Cortisol).half_life_hours) < 1 := by
    exact decay_lt_one (by norm_num) (by norm_num [Cortisol.create])
  have hd0 : (0 : ℝ) ≤ (0.5 : ℝ) ^
      ((1 : ℝ) / ({ Cortisol.create with concentration := 9 } : Cortisol).half_life_hours) :=
    decay_nonneg _
  have hcc : ({ Cortisol.create with concentration := 9 } : Cortisol).concentration = 9 := rfl
  have hbb : ({ Cortisol.create with concentration := 9 } : Cortisol).baseline = 12 := by
    norm_num [Cortisol.create]
  rw [hcc, hbb]
  rw [if_pos (by nlinarith)]
  norm_num

/-- C5 (amended).  `metabolize(0)` leaves the adrenaline concentration
unchanged for every instance (the decay factor is exactly `0.5 ** 0 = 1`
in real arithmetic), and leaves the cortisol concentration unchanged
whenever it is at or above the baseline.  The original claim fails for
cortisol states below the baseline (reachable via night circadian
modulation), where `metabolize(0)` snaps the concentration up to the
baseline. -/
theorem C5_amended_zero_elapsed_identity :
    (∀ a : Adrenaline, (a.metabolize 0).concentration = a.concentration) ∧
    (∀ c : Cortisol, c.baseline ≤ c.concentration →
      (c.metabolize 0).concentration = c.concentration) := by
  constructor
  · intro a
    rw [adren_metabolize_concentration, zero_div, Real.rpow_zero, mul_one]
  · intro c hbc
    rw [cort_metabolize_concentration, zero_div, Real.rpow_zero, mul_one,
      if_neg (not_lt.2 hbc)]

/-- C5 witness: the amended statement evaluated on a fresh adrenaline
instance and a fresh cortisol instance (concentration = baseline). -/
theorem C5_witness :
    (Adrenaline.create.metabolize 0).concentration =
        Adrenaline.create.concentration ∧
    (Cortisol.create.metabolize 0).concentration =
        Cortisol.create.concentration :=
  ⟨C5_amended_zero_elapsed_identity.1 Adrenaline.create,
   C5_amended_zero_elapsed_identity.2 Cortisol.create
     (by norm_num [Cortisol.create])⟩

/-- C5 counterexample: at the reachable cortisol state with
concentration 9 below baseline 12 (after night circadian modulation),
`metabolize(0)` changes the concentration — it clamps it up to 12 —
refuting "metabolize with elapsed time 0 leaves the concentration
unchanged for every reachable state". -/
theorem C5_cex_metabolize_zero_changes_concentration :
    ((Cortisol.create.circadian_modulation 23 false).metabolize 0).concentration ≠
      (Cortisol.create.circadian_modulation 23 false).concentration := by
  have hstate : Cortisol.create.circadian_modulation 23 false =
      { Cortisol.create with concentration := 9 } := by
    simp only [Cortisol.circadian_modulation, Cortisol.create]
    norm_num
  rw [hstate, cort_metabolize_concentration, zero_div, Real.rpow_zero,
    mul_one]
  have hcc : ({ Cortisol.create with concentration := 9 } : Cortisol).concentration = 9 := rfl
  have hbb : ({ Cortisol.create with concentration := 9 } : Cortisol).baseline = 12 := by
    norm_num [Cortisol.create]
  rw [hcc, hbb, if_pos (by norm_num)]
  norm_num

/-- The adrenaline multiplier of every threat kind is non-negative. -/
theorem threat_multipliers_nonneg (t : ThreatType) :
    0 ≤ threat_multipliers t := by
  cases t <;> norm_num [threat_multipliers]

/-- Every operator-level operation keeps the adrenaline concentration
non-negative: each one either leaves it alone, multiplies it by a
positive literal constant, or multiplies it by a decay factor. -/
theorem applyOp_adrenaline_nonneg (s : OperatorPhysiology) (op : Op)
    (h : 0 ≤ s.adrenaline.concentration) :
    0 ≤ (applyOp s op).adrenaline.concentration := by
  cases op with
  | briefing m d =>
      simp only [applyOp, OperatorPhysiology.operational_briefing]
      exact mul_nonneg h (by norm_num)
  | engage t sev ammo n1 roll n2 =>
      simp only [applyOp, OperatorPhysiology.threat_engagement,
        Adrenaline.acute_stress_response]
      exact mul_nonneg h (threat_multipliers_nonneg t)
  | casualty sev r1 r2 n =>
      simp only [applyOp, OperatorPhysiology.element_casualty]
      exact mul_nonneg h (by norm_num)
  | retrograde p n =>
      simp only [applyOp, OperatorPhysiology.tactical_retrograde]
      cases p
      · simpa using h
      · simpa using mul_nonneg h (by norm_num : (0:ℝ) ≤ 1.9)
  | debrief rp =>
      simp only [applyOp, OperatorPhysiology.extraction_debrief,
        adren_metabolize_concentration]
      exact mul_nonneg h (decay_nonneg _)
  | circadian hh d =>
      simpa only [applyOp] using h
  | cort_metabolize t =>
      simpa only [applyOp] using h
  | adren_metabolize t =>
      simp only [applyOp, adren_metabolize_concentration]
      exact mul_nonneg h (decay_nonneg _)

/-- C1 (amended).  Over every sequence of operations, the adrenaline
concentration never goes below zero, and after any `metabolize` call the
cortisol concentration is at least the (unchanged) baseline.  The
original claim — cortisol never below its baseline under *every*
operation — fails: night circadian modulation multiplies the
concentration by 0.75, taking it below the baseline. -/
theorem C1_amended_adrenaline_nonneg_cortisol_metabolize_floor
    (s : OperatorPhysiology) (ops : List Op)
    (ha : 0 ≤ s.adrenaline.concentration) :
    0 ≤ (applyOps s ops).adrenaline.concentration ∧
    ∀ (c : Cortisol) (t : ℝ),
      (c.metabolize t).baseline ≤ (c.metabolize t).concentration := by
  constructor
  · induction ops generalizing s with
    | nil => exact ha
    | cons op rest ih =>
        simpa only [applyOps, List.foldl_cons] using
          ih (applyOp s op) (applyOp_adrenaline_nonneg s op ha)
  · intro c t
    rw [cort_metabolize_baseline, cort_metabolize_concentration]
    split_ifs with h
    · exact le_refl _
    · exact not_lt.1 h

/-- C1 witness: the amended statement evaluated on a freshly created
operator and a two-operation history. -/
theorem C1_witness :
    0 ≤ (applyOps (OperatorPhysiology.create "Maverick" "Alpha")
          [Op.circadian 23 false, Op.cort_metabolize 4]).adrenaline.concentration ∧
    ∀ (c : Cortisol) (t : ℝ),
      (c.metabolize t).baseline ≤ (c.metabolize t).concentration :=
  C1_amended_adrenaline_nonneg_cortisol_metabolize_floor
    (OperatorPhysiology.create "Maverick" "Alpha")
    [Op.circadian 23 false, Op.cort_metabolize 4]
    (by norm_num [OperatorPhysiology.create, Adrenaline.create])

/-- C1 counterexample: one night circadian-modulation operation on a
freshly created operator leaves its cortisol concentration (9) strictly
below its baseline floor (12), refuting "the cortisol concentration
never goes below its current baseline floor" over arbitrary operation
sequences. -/
theorem C1_cex_circadian_below_baseline :
    (applyOps (OperatorPhysiology.create "Maverick" "Alpha")
        [Op.circadian 23 false]).cortisol.concentration <
      (applyOps (OperatorPhysiology.create "Maverick" "Alpha")
        [Op.circadian 23 false]).cortisol.baseline := by
  simp only [applyOps, List.foldl_cons, List.foldl_nil, applyOp]
  have hstate : (OperatorPhysiology.create "Maverick" "Alpha").cortisol.circadian_modulation 23 false =
      { Cortisol.create with concentration := 9 } := by
    simp only [OperatorPhysiology.create, Cortisol.circadian_modulation,
      Cortisol.create]
    norm_num
  rw [hstate]
  norm_num [Cortisol.create]

/-- One cortisol operation preserves baseline non-negativity, never
decreases the baseline, and never clears the chronic-adaptation flag. -/
theorem applyCOp_ratchet (c : Cortisol) (op : COp) (h : 0 ≤ c.baseline) :
    0 ≤ (applyCOp c op).baseline ∧
    c.baseline ≤ (applyCOp c op).baseline ∧
    (c.chronic_adaptation = true → (applyCOp c op).chronic_adaptation = true) := by
  cases op with
  | metabolize t =>
      exact ⟨h, le_refl _, fun hc => hc⟩
  | stress d m =>
      simp only [applyCOp, Cortisol.stress_accumulation]
      split_ifs with hd
      · refine ⟨by nlinarith, ?_, fun _ => rfl⟩
        nlinarith
      · exact ⟨h, le_refl _, fun hc => hc⟩
  | circadian hh b =>
      simp only [applyCOp, Cortisol.circadian_modulation]
      split_ifs <;> exact ⟨h, le_refl _, fun hc => hc⟩
  | external_scale k =>
      exact ⟨h, le_refl _, fun hc => hc⟩

/-- Sequence form of `applyCOp_ratchet`. -/
theorem applyCOps_ratchet (l : List COp) :
    ∀ c : Cortisol, 0 ≤ c.baseline →
      0 ≤ (applyCOps c l).baseline ∧
      c.baseline ≤ (applyCOps c l).baseline ∧
      (c.chronic_adaptation = true →
        (applyCOps c l).chronic_adaptation = true) := by
  induction l with
  | nil => exact fun c h => ⟨h, le_refl _, fun hc => hc⟩
  | cons op rest ih =>
      intro c h
      have h1 := applyCOp_ratchet c op h
      have h2 := ih (applyCOp c op) h1.1
      exact ⟨h2.1, h1.2.1.trans h2.2.1, fun hc => h2.2.2 (h1.2.2 hc)⟩

/-- C3.  For every cortisol instance with a non-negative baseline and
every operation history split into a prefix and a suffix, the baseline
after the prefix is no larger than the baseline after the whole history
(non-decreasing along every sequence), and once `chronic_adaptation` is
true after the prefix it is still true after the whole history — the
ratchet never reverses.  The operation set covers `metabolize`,
`stress_accumulation`, `circadian_modulation` and the direct
concentration scalings performed by operator methods. -/
theorem C3_baseline_ratchet_monotone (c : Cortisol) (h : 0 ≤ c.baseline)
    (l1 l2 : List COp) :
    (applyCOps c l1).baseline ≤ (applyCOps c (l1 ++ l2)).baseline ∧
    ((applyCOps c l1).chronic_adaptation = true →
      (applyCOps c (l1 ++ l2)).chronic_adaptation = true) := by
  have happ : applyCOps c (l1 ++ l2) = applyCOps (applyCOps c l1) l2 := by
    simp only [applyCOps, List.foldl_append]
  rw [happ]
  have h1 := applyCOps_ratchet l1 c h
  have h2 := applyCOps_ratchet l2 (applyCOps c l1) h1.1
  exact ⟨h2.2.1, h2.2.2⟩

/-- C3 witness: a fresh cortisol instance, an empty prefix, and a
200-hour direct-action stress accumulation as suffix. -/
theorem C3_witness :
    (applyCOps Cortisol.create []).baseline ≤
      (applyCOps Cortisol.create
        ([] ++ [COp.stress 200 MissionType.DIRECT_ACTION])).baseline ∧
    ((applyCOps Cortisol.create []).chronic_adaptation = true →
      (applyCOps Cortisol.create
        ([] ++ [COp.stress 200 MissionType.DIRECT_ACTION])).chronic_adaptation = true) :=
  C3_baseline_ratchet_monotone Cortisol.create
    (by norm_num [Cortisol.create]) [] [COp.stress 200 MissionType.DIRECT_ACTION]

/-- C7: the code performs no validation of negative numeric inputs.
`stress_accumulation(-1, RECON)` on a fresh cortisol instance mutates
the concentration from 12 down to 9.93 (and the deployment-day counter
to −1/24), and `threat_engagement(SNIPER, −0.5)` on a fresh operator
mutates the adrenaline concentration from 1 to 6.8 — in both cases the
hormone state changes instead of failing validation. -/
theorem C7_negative_inputs_mutate_state :
    (Cortisol.create.stress_accumulation (-1) MissionType.RECON).concentration
        = 9.93 ∧
    (Cortisol.create.stress_accumulation (-1) MissionType.RECON).concentration
        < Cortisol.create.concentration ∧
    (Cortisol.create.stress_accumulation (-1) MissionType.RECON).deployment_days
        = -(1 / 24) ∧
    ((OperatorPhysiology.create "Ghost" "Alpha").threat_engagement
        ThreatType.SNIPER (-0.5) 45 0 0 0).1.adrenaline.concentration = 6.8 := by
  refine ⟨?_, ?_, ?_, ?_⟩
  · simp only [Cortisol.stress_accumulation, Cortisol.create, mission_factors]
    norm_num
  · simp only [Cortisol.stress_accumulation, Cortisol.create, mission_factors]
    norm_num
  · simp only [Cortisol.stress_accumulation, Cortisol.create, mission_factors]
    norm_num
  · simp only [OperatorPhysiology.threat_engagement, OperatorPhysiology.create,
      Adrenaline.acute_stress_response, Adrenaline.create, threat_multipliers]
    norm_num

/-- C9 (amended).  The vitals snapshot is a deterministic function of
the post-multiplication concentration; pupil dilation is non-decreasing
in the concentration and capped at 0.95 (reaching the cap from
concentration 8.125 on); reaction time is non-increasing and floored at
160 ms (reaching the floor from concentration 160/18 on); auditory
threshold, visual field and situational awareness are also one-sidedly
clamped.  The original claim's "each vital field is clamped" fails:
heart rate, respiratory rate and tremor intensity are unclamped linear
functions of the concentration. -/
theorem C9_amended_vitals_shape :
    (∀ (a : Adrenaline) (threat : ThreatType) (now : ℝ),
      (a.acute_stress_response threat now).2.metrics =
        acuteMetrics (a.acute_stress_response threat now).1.concentration) ∧
    (∀ x y : ℝ, x ≤ y →
      (acuteMetrics x).pupil_dilation ≤ (acuteMetrics y).pupil_dilation) ∧
    (∀ x : ℝ, (acuteMetrics x).pupil_dilation ≤ 0.95) ∧
    (∀ x : ℝ, 8.125 ≤ x → (acuteMetrics x).pupil_dilation = 0.95) ∧
    (∀ x y : ℝ, x ≤ y →
      (acuteMetrics y).reaction_time_ms ≤ (acuteMetrics x).reaction_time_ms) ∧
    (∀ x : ℝ, 160 ≤ (acuteMetrics x).reaction_time_ms) ∧
    (∀ x : ℝ, 160 / 18 ≤ x → (acuteMetrics x).reaction_time_ms = 160) ∧
    (∀ x : ℝ, (acuteMetrics x).auditory_threshold ≤ 0.85 ∧
      (acuteMetrics x).visual_field ≤ 0.75 ∧
      0.25 ≤ (acuteMetrics x).situational_awareness) := by
  refine ⟨fun a threat now => rfl, ?_, ?_, ?_, ?_, ?_, ?_, ?_⟩
  · intro x y hxy
    exact min_le_min (le_refl _) (by nlinarith)
  · intro x
    exact min_le_left _ _
  · intro x hx
    exact min_eq_left (by nlinarith)
  · intro x y hxy
    exact max_le_max (le_refl _) (by nlinarith)
  · intro x
    exact le_max_left _ _
  · intro x hx
    exact max_eq_left (by nlinarith)
  · intro x
    exact ⟨min_le_left _ _, min_le_left _ _, le_max_left _ _⟩

/-- C9 witness: the amended statement instantiated at a fresh adrenaline
instance under an AMBUSH trigger and at concentrations 2 and 10. -/
theorem C9_witness :
    (Adrenaline.create.acute_stress_response ThreatType.AMBUSH 0).2.metrics =
      acuteMetrics
        (Adrenaline.create.acute_stress_response ThreatType.AMBUSH 0).1.concentration ∧
    (acuteMetrics 2).pupil_dilation ≤ (acuteMetrics 10).pupil_dilation ∧
    (acuteMetrics 10).pupil_dilation = 0.95 ∧
    (acuteMetrics 10).reaction_time_ms ≤ (acuteMetrics 2).reaction_time_ms ∧
    (acuteMetrics 10).reaction_time_ms = 160 :=
  ⟨C9_amended_vitals_shape.1 Adrenaline.create ThreatType.AMBUSH 0,
   C9_amended_vitals_shape.2.1 2 10 (by norm_num),
   C9_amended_vitals_shape.2.2.2.1 10 (by norm_num),
   C9_amended_vitals_shape.2.2.2.2.1 2 10 (by norm_num),
   C9_amended_vitals_shape.2.2.2.2.2.2.1 10 (by norm_num)⟩

/-- C9 counterexample: an adrenaline state with concentration 1000 hit
by an AMBUSH trigger yields heart rate 60110 bpm and tremor intensity
900 — the heart-rate, respiratory-rate and tremor fields grow linearly
without any clamp, refuting "each vital field is clamped to a
documented min/max range". -/
theorem C9_cex_unclamped_vitals :
    (({ concentration := 1000, baseline := 1.0, half_life_seconds := 120,
        peak_response := false, peak_timestamp := 0 } :
          Adrenaline).acute_stress_response
        ThreatType.AMBUSH 0).2.metrics.heart_rate_bpm = 60110 ∧
    (({ concentration := 1000, baseline := 1.0, half_life_seconds := 120,
        peak_response := false, peak_timestamp := 0 } :
          Adrenaline).acute_stress_response
        ThreatType.AMBUSH 0).2.metrics.tremor_intensity = 900 := by
  constructor
  · simp only [Adrenaline.acute_stress_response, acuteMetrics,
      threat_multipliers]
    norm_num
  · simp only [Adrenaline.acute_stress_response, acuteMetrics,
      threat_multipliers]
    norm_num

/-- C6: `attach_operator` with an identifier already present does not
fail — the embedding is a total function and the Python method raises
nothing — it silently replaces the stored operator with a freshly
created one.  Attaching "Maverick"/"Alpha" and then "Maverick"/"Bravo"
leaves a single entry holding a fresh operator whose element is
"Bravo"; the previously stored operator is discarded. -/
theorem C6_attach_silent_overwrite :
    (((BattalionTaskForce.create "TF Raider").attach_operator
        "Maverick" "Alpha").attach_operator "Maverick" "Bravo").personnel =
      [("Maverick", OperatorPhysiology.create "Maverick" "Bravo")] ∧
    (((BattalionTaskForce.create "TF Raider").attach_operator
        "Maverick" "Alpha").attach_operator "Maverick" "Bravo").personnel.length = 1 := by
  constructor
  · simp [BattalionTaskForce.attach_operator, BattalionTaskForce.create,
      dictInsert]
  · simp [BattalionTaskForce.attach_operator, BattalionTaskForce.create,
      dictInsert]

/-- C8: on a unit with zero operators, `assess_unit_readiness` returns
normally (the embedding is a total function, matching the guarded
Python expression `total/len if personnel else 0`) with mean adrenaline
0, mean cortisol 0 and an effective-personnel count of 0. -/
theorem C8_empty_unit_readiness (u : BattalionTaskForce) (c : Ctx)
    (h : u.personnel = []) :
    (u.assess_unit_readinessC c).1.2.mean_adrenaline = 0 ∧
    (u.assess_unit_readinessC c).1.2.mean_cortisol = 0 ∧
    (u.assess_unit_readinessC c).1.2.effective_personnel = 0 := by
  simp [BattalionTaskForce.assess_unit_readinessC, h, pyRound1]

/-- C8 witness: the statement evaluated on a freshly created (empty)
task force with an arbitrary concrete context. -/
theorem C8_witness :
    ((BattalionTaskForce.create "TF Raider").assess_unit_readinessC
        { rand := fun _ => 0, ri := 0, clock := fun _ => 0, ci := 0 }).1.2.mean_adrenaline = 0 ∧
    ((BattalionTaskForce.create "TF Raider").assess_unit_readinessC
        { rand := fun _ => 0, ri := 0, clock := fun _ => 0, ci := 0 }).1.2.mean_cortisol = 0 ∧
    ((BattalionTaskForce.create "TF Raider").assess_unit_readinessC
        { rand := fun _ => 0, ri := 0, clock := fun _ => 0, ci := 0 }).1.2.effective_personnel = 0 :=
  C8_empty_unit_readiness (BattalionTaskForce.create "TF Raider")
    { rand := fun _ => 0, ri := 0, clock := fun _ => 0, ci := 0 } rfl

/-- C10: `assess_unit_readiness` is a pure read.  The method body
contains no assignment to the task force or to any operator, so the
embedding returns the receiver unchanged: every operator's hormone
concentrations, status, posture, counters and event log, and the unit's
posture and deployment-day counter, are exactly those of the input
state.  (Only the injected clock stream's cursor advances, via the
`performance_modifier()` calls.) -/
theorem C10_assess_readiness_pure (u : BattalionTaskForce) (c : Ctx) :
    (u.assess_unit_readinessC c).1.1 = u := rfl

/-- A fresh cortisol instance sits at its baseline, so the simulator's
4-hour `metabolize` step leaves it unchanged (the decayed value falls
below the baseline and is clamped back to it). -/
theorem cort_create_metabolize_fix :
    Cortisol.create.metabolize 4 = Cortisol.create := by
  have h : Cortisol.create.concentration *
      (0.5 : ℝ) ^ ((4 : ℝ) / Cortisol.create.half_life_hours) <
      Cortisol.create.baseline := by
    have hd1 : (0.5 : ℝ) ^ ((4 : ℝ) / Cortisol.create.half_life_hours) < 1 :=
      decay_lt_one (by norm_num) (by norm_num [Cortisol.create])
    have hc : Cortisol.create.concentration = 12 := by norm_num [Cortisol.create]
    have hb : Cortisol.create.baseline = 12 := by norm_num [Cortisol.create]
    rw [hc, hb]
    nlinarith [decay_nonneg ((4 : ℝ) / Cortisol.create.half_life_hours)]
  simp only [Cortisol.metabolize]
  rw [if_pos h]
  rfl

/-- With the constant-1/2 random stream no contact event fires, so one
simulator hour leaves the unit (whose only operator is `simOpA`, at
cortisol baseline) unchanged and touches neither the clock stream nor
its cursor. -/
theorem sim_hour_const (u : BattalionTaskForce) (hh : ℕ) (c : Ctx)
    (hu : u.personnel = [("A", simOpA)])
    (hr : c.rand = fun _ => (1 : ℝ) / 2) :
    (u.sim_hour hh c).1 = u ∧
    (u.sim_hour hh c).2.rand = c.rand ∧
    (u.sim_hour hh c).2.clock = c.clock ∧
    (u.sim_hour hh c).2.ci = c.ci := by
  have hop : ({ simOpA with cortisol := simOpA.cortisol.metabolize 4 } :
      OperatorPhysiology) = simOpA := by
    rw [show simOpA.cortisol.metabolize 4 = simOpA.cortisol from
      cort_create_metabolize_fix]
  have hmap : u.personnel.map
      (fun p => (p.1, { p.2 with cortisol := p.2.cortisol.metabolize 4 })) =
      u.personnel := by
    rw [hu]
    simp only [List.map_cons, List.map_nil, hop]
  have hself : ({ u with personnel := u.personnel } : BattalionTaskForce) = u :=
    rfl
  simp only [BattalionTaskForce.sim_hour, hmap, hself, ite_self, Ctx.random, hr]
  by_cases hw : 6 ≤ hh ∧ hh ≤ 19
  · rw [if_pos hw, if_neg (by norm_num : ¬((1 : ℝ) / 2 < 0.15))]
    exact ⟨rfl, rfl, rfl, rfl⟩
  · rw [if_neg hw]
    exact ⟨rfl, hr, rfl, rfl⟩

/-- Fold form of `sim_hour_const` over an arbitrary list of hours. -/
theorem sim_hour_fold_const (l : List ℕ) :
    ∀ (u : BattalionTaskForce) (c : Ctx),
      u.personnel = [("A", simOpA)] →
      c.rand = (fun _ => (1 : ℝ) / 2) →
      (l.foldl (fun (acc : BattalionTaskForce × Ctx) h =>
          BattalionTaskForce.sim_hour acc.1 h acc.2) (u, c)).1 = u ∧
      (l.foldl (fun (acc : BattalionTaskForce × Ctx) h =>
          BattalionTaskForce.sim_hour acc.1 h acc.2) (u, c)).2.rand = c.rand ∧
      (l.foldl (fun (acc : BattalionTaskForce × Ctx) h =>
          BattalionTaskForce.sim_hour acc.1 h acc.2) (u, c)).2.clock = c.clock ∧
      (l.foldl (fun (acc : BattalionTaskForce × Ctx) h =>
          BattalionTaskForce.sim_hour acc.1 h acc.2) (u, c)).2.ci = c.ci := by
  induction l with
  | nil => exact fun u c _ _ => ⟨rfl, rfl, rfl, rfl⟩
  | cons hd tl ih =>
      intro u c hu hr
      have h1 := sim_hour_const u hd c hu hr
      have h2 := ih (u.sim_hour hd c).1 (u.sim_hour hd c).2
        (by rw [h1.1]; exact hu) (by rw [h1.2.1]; exact hr)
      simp only [List.foldl_cons]
      refine ⟨h2.1.trans h1.1, ?_, ?_, ?_⟩
      · rw [h2.2.1, h1.2.1]
      · rw [h2.2.2.1, h1.2.2.1]
      · rw [h2.2.2.2, h1.2.2.2]

/-- The 24-hour loop under the constant-1/2 random stream is the
identity on the unit state and preserves the clock stream and cursor. -/
theorem sim_hours_const (u : BattalionTaskForce) (c : Ctx)
    (hu : u.personnel = [("A", simOpA)])
    (hr : c.rand = fun _ => (1 : ℝ) / 2) :
    (u.sim_hours c).1 = u ∧
    (u.sim_hours c).2.rand = c.rand ∧
    (u.sim_hours c).2.clock = c.clock ∧
    (u.sim_hours c).2.ci = c.ci :=
  sim_hour_fold_const (List.range 24) u c hu hr

/-- Under a wall clock reading 100 seconds, the single surging operator
`simOpA` counts as combat-effective: its surge is 100 s old, inside the
peak window, so `performance_modifier` returns `1 + 6.8·0.08 > 0.58`. -/
theorem assess_effectiveA (u : BattalionTaskForce) (c : Ctx)
    (hu : u.personnel = [("A", simOpA)])
    (hclk : c.clock = fun _ => (100 : ℝ)) :
    (u.assess_unit_readinessC c).1.2.effective_personnel = 1 := by
  simp only [BattalionTaskForce.assess_unit_readinessC, hu, List.foldl_cons,
    List.foldl_nil, Adrenaline.performance_modifierC,
    Adrenaline.performance_modifier, Ctx.now, hclk]
  norm_num [simOpA, OperatorPhysiology.create]
  rfl

/-- Under a wall clock reading 1000000 seconds, the same operator in the
same state is no longer combat-effective: the surge is stale, so
`performance_modifier` returns the fatigue floor `0.4 < 0.58`. -/
theorem assess_effectiveB (u : BattalionTaskForce) (c : Ctx)
    (hu : u.personnel = [("A", simOpA)])
    (hclk : c.clock = fun _ => (1000000 : ℝ)) :
    (u.assess_unit_readinessC c).1.2.effective_personnel = 0 := by
  simp only [BattalionTaskForce.assess_unit_readinessC, hu, List.foldl_cons,
    List.foldl_nil, Adrenaline.performance_modifierC,
    Adrenaline.performance_modifier, Ctx.now, hclk]
  norm_num [simOpA, OperatorPhysiology.create]
  rfl

/-- A one-day simulation returns exactly the day's snapshot. -/
theorem ext_sim_one_snapshots (u : BattalionTaskForce) (c : Ctx) :
    (u.extended_deployment_simulation 1 c).1.2 = [(u.sim_day c).1.2] := rfl

/-- Unfolding one simulated day from `simUnit`. -/
theorem sim_day_simUnit_eq (c : Ctx) :
    simUnit.sim_day c =
      (simUnitDay1.sim_hours c).1.assess_unit_readinessC
        (simUnitDay1.sim_hours c).2 := rfl

/-- The one-day run under clock `ctxA` reports one combat-effective
operator. -/
theorem sim_effective_listA :
    ((simUnit.extended_deployment_simulation 1 ctxA).1.2).map
      (fun r => r.effective_personnel) = [1] := by
  rw [ext_sim_one_snapshots, sim_day_simUnit_eq]
  have hfold := sim_hours_const simUnitDay1 ctxA rfl rfl
  rw [hfold.1]
  simp only [List.map_cons, List.map_nil]
  rw [assess_effectiveA simUnitDay1 _ rfl (hfold.2.2.1.trans rfl)]

/-- The one-day run under clock `ctxB` — same injected random stream,
same initial unit state — reports zero combat-effective operators. -/
theorem sim_effective_listB :
    ((simUnit.extended_deployment_simulation 1 ctxB).1.2).map
      (fun r => r.effective_personnel) = [0] := by
  rw [ext_sim_one_snapshots, sim_day_simUnit_eq]
  have hfold := sim_hours_const simUnitDay1 ctxB rfl rfl
  rw [hfold.1]
  simp only [List.map_cons, List.map_nil]
  rw [assess_effectiveB simUnitDay1 _ rfl (hfold.2.2.1.trans rfl)]

/-- C2: the daily snapshot sequence is *not* determined by the injected
random source and the initial unit state.  `ctxA` and `ctxB` share the
same random stream (constantly 1/2) and the simulation starts from the
same unit state `simUnit`, yet the two one-day runs return different
snapshot lists, because `performance_modifier` branches on the wall
clock (`time.time()`) read at assessment time: under `ctxA` the day-1
snapshot counts 1 effective operator, under `ctxB` it counts 0. -/
theorem C2_sim_depends_on_wall_clock :
    (simUnit.extended_deployment_simulation 1 ctxA).1.2 ≠
      (simUnit.extended_deployment_simulation 1 ctxB).1.2 := by
  intro heq
  have hA := sim_effective_listA
  rw [heq, sim_effective_listB] at hA
  exact absurd hA (by decide)
